import Mathlib

/-!
Verification development for the ReportFlow subscription reconciliation and
entitlement engine (`services/payment-service.js`, enhanced version, plus the
usage middleware).  The JavaScript source is shallowly embedded: each
JavaScript function that the claims mention becomes a Lean definition over
explicit state/inputs, external collaborators (the axios HTTP client, the
node:crypto HMAC primitive, the supabase row store) become explicit
parameters or query-result inputs, and JavaScript truthiness (`||`, `if (x)`)
is modelled by dedicated helpers on `Option`.
-/

namespace ReportFlow

/-! ## JavaScript truthiness helpers

In the source, `x || y` and `if (x)` treat `null`, `undefined`, the empty
string and the number `0` as falsy.  `Option.none` models `null`/`undefined`.
-/

/-- Truthiness of an optional string: the empty string is falsy. -/
def strTruthy : Option String → Option String
  | some s => if s = "" then none else some s
  | none => none

/-- JavaScript `a || b` on optional strings. -/
def jsOrS (a b : Option String) : Option String :=
  match strTruthy a with
  | some s => some s
  | none => b

/-- Truthiness of an optional number: `0` is falsy. -/
def natTruthy : Option Nat → Option Nat
  | some n => if n = 0 then none else some n
  | none => none

/-- JavaScript `a || b` on optional numbers. -/
def jsOrN (a b : Option Nat) : Option Nat :=
  match natTruthy a with
  | some n => some n
  | none => b

/-- Model of `calculatePeriodEnd(days)`: the current time plus `days` days.
Time is modelled as a natural number of seconds. -/
def calculatePeriodEnd (days now : Nat) : Nat :=
  now + days * 86400

/-! ## Endpoint Resolver and Retrier (`tryEndpoints`, lines 372-440)

An outbound attempt either produces an HTTP response with a status and a
body, or throws (network error, timeout).  The axios instance is modelled as
a function from the attempt number to an outcome, one such function per
candidate path. -/

/-- Outcome of one `await axiosInstance(config)` call: a fulfilled response
carrying a status code and a parsed body of type `δ`, or a thrown error
message.  The instance is created without a `validateStatus` override, so
under axios's default contract a fulfilled response always has a 2xx status
and every non-2xx HTTP status arrives as a thrown error in the `catch`
(`axiosAwait` below derives outcomes from raw HTTP results accordingly);
axios-retry's internal retries are folded into the single outcome. -/
inductive AxOutcome (δ : Type) where
  | resp (status : Nat) (data : δ)
  | exn (msg : String)
deriving DecidableEq

/-- The two shapes the source stores into `lastError`: a non-2xx response
(`{status, data, url, attempt}`) or a caught exception
(`{error, url, attempt, ...}`). -/
inductive LastErr (δ : Type) where
  | respErr (status : Nat) (data : δ) (attempt : Nat)
  | exnErr (msg : String) (attempt : Nat)
deriving DecidableEq

/-- Result of the inner per-path attempt loop: success with the status, body
and the attempt number that succeeded, or failure carrying the final
`lastError` and the number of attempts actually made against that path. -/
inductive PathOutcome (δ : Type) where
  | succ (status : Nat) (data : δ) (attempt : Nat)
  | failed (lastError : Option (LastErr δ)) (attemptsMade : Nat)
deriving DecidableEq

/-- The inner loop `for (let attempt = 1; attempt <= maxRetries; attempt++)`
of `tryEndpoints`, for one candidate path, with the source's branch structure
kept verbatim: a fulfilled 2xx response returns immediately; a fulfilled 4xx
response would record `lastError` and `break` out of the attempt loop; any
other fulfilled response records `lastError` and continues; a thrown error
records `lastError`, backs off and continues.  Under the axios contract
(`axiosAwait`) fulfilled responses are always 2xx, so the 4xx-break branch —
like the `else` branch it sits in — is dead code: non-2xx statuses reject the
promise and are retried through the `catch`.  `remaining` counts the attempts
still allowed, `attempt` is the 1-based attempt number. -/
def runPathGo (outcomes : Nat → AxOutcome δ) :
    Nat → Nat → Option (LastErr δ) → PathOutcome δ
  | 0, attempt, lastError => .failed lastError (attempt - 1)
  | remaining + 1, attempt, lastError =>
    match outcomes attempt with
    | .resp s d =>
      if 200 ≤ s ∧ s < 300 then
        .succ s d attempt
      else if 400 ≤ s ∧ s < 500 then
        .failed (some (.respErr s d attempt)) attempt
      else
        runPathGo outcomes remaining (attempt + 1) (some (.respErr s d attempt))
    | .exn m =>
      runPathGo outcomes remaining (attempt + 1) (some (.exnErr m attempt))

/-- All attempts against a single candidate path. -/
def runPath (outcomes : Nat → AxOutcome δ) (maxRetries : Nat) : PathOutcome δ :=
  runPathGo outcomes maxRetries 1 none

/-- A JavaScript runtime error escaping a function.  `tryEndpoints` declares
`let lastError` inside the `for (const path of candidatePaths)` block but the
final `return { ok: false, error: lastError || ... }` statement sits outside
that block, where the name `lastError` is not bound; evaluating it throws
`ReferenceError: lastError is not defined`. -/
inductive JsError where
  | referenceError (name : String)
deriving DecidableEq

/-- The success value `{ ok: true, data, endpointUsed, status }`. -/
structure TrySuccess (δ : Type) where
  data : δ
  endpointUsed : String
  status : Nat
deriving DecidableEq

/-- The outer loop of `tryEndpoints` over the candidate paths.  On per-path
success it returns the `ok: true` object; on per-path failure it moves to the
next candidate.  When every candidate is exhausted, control reaches the
`return { ok: false, error: lastError || ... }` statement, which throws a
`ReferenceError` because `lastError` is block-scoped to the body of the path
loop (see `JsError`). -/
def tryEndpointsGo (maxRetries : Nat) :
    List (String × (Nat → AxOutcome δ)) → Except JsError (TrySuccess δ)
  | [] => .error (.referenceError "lastError")
  | (path, outcomes) :: rest =>
    match runPath outcomes maxRetries with
    | .succ s d _ => .ok ⟨d, path, s⟩
    | .failed _ _ => tryEndpointsGo maxRetries rest

/-- Model of `tryEndpoints(method, body, candidatePaths, maxRetries = 3)`.
The HTTP world is the list of candidate paths paired with the outcome of each
attempt against that path; the method and request body do not influence the
control flow and are omitted. -/
def tryEndpoints (world : List (String × (Nat → AxOutcome δ)))
    (maxRetries : Nat) : Except JsError (TrySuccess δ) :=
  tryEndpointsGo maxRetries world

/-- The raw HTTP result of one attempt, before the axios client interprets
it: a response with some status, or a network error/timeout. -/
inductive HttpResult (δ : Type) where
  | status (s : Nat) (data : δ)
  | netErr (msg : String)
deriving DecidableEq

/-- The axios instance with its default `validateStatus` (the source never
overrides it): a 2xx response fulfils the awaited promise, every other
status rejects it with `Request failed with status code <s>` — and
axios-retry does not retry 4xx on POST, so such a rejection surfaces to the
caller's `catch` at once. -/
def axiosAwait : HttpResult δ → AxOutcome δ
  | .status s d =>
    if 200 ≤ s ∧ s < 300 then .resp s d
    else .exn ("Request failed with status code " ++ toString s)
  | .netErr m => .exn m

/-- `tryEndpoints` driven by raw HTTP results: each attempt's result passes
through the axios client before the source's branch structure sees it. -/
def tryEndpointsHttp (world : List (String × (Nat → HttpResult δ)))
    (maxRetries : Nat) : Except JsError (TrySuccess δ) :=
  tryEndpoints
    (world.map fun pw => (pw.1, fun attempt => axiosAwait (pw.2 attempt)))
    maxRetries

/-! ## Webhook signature verification (`verifyDodoSignature`, lines 771-793)

The node:crypto HMAC-SHA256 primitive is external to the repository and is
modelled as an explicit function parameter `hmacHex` from the secret and the
raw body to the lowercase hex digest.  `Buffer.from(hex, 'hex')` is modelled
with Node's semantics: decoding proceeds pairwise and stops at the first
character pair that is not valid hex (a trailing odd character is dropped).
-/

/-- Value of a hex digit character, `none` for a non-hex character. -/
def hexVal (c : Char) : Option Nat :=
  if '0' ≤ c ∧ c ≤ '9' then some (c.toNat - 48)
  else if 'a' ≤ c ∧ c ≤ 'f' then some (c.toNat - 87)
  else if 'A' ≤ c ∧ c ≤ 'F' then some (c.toNat - 55)
  else none

/-- Node `Buffer.from(s, 'hex')` on a character list: bytes from leading
valid hex pairs. -/
def hexDecode : List Char → List Nat
  | c1 :: c2 :: rest =>
    match hexVal c1, hexVal c2 with
    | some h, some l => (16 * h + l) :: hexDecode rest
    | _, _ => []
  | _ => []

/-- Model of `signatureHeader.replace(/^sha256=/, '')`: drop one leading
literal `sha256=`. -/
def stripSha256 (s : String) : String :=
  match s.data with
  | 's' :: 'h' :: 'a' :: '2' :: '5' :: '6' :: '=' :: rest => String.mk rest
  | _ => s

/-- Model of `verifyDodoSignature(rawBody, signatureHeader, secret)`: strip
the optional `sha256=` prefix, compute the expected digest with the HMAC
primitive, decode both hex strings to bytes, fail when the lengths differ and
otherwise compare the bytes (`crypto.timingSafeEqual`; the constant-time
aspect is a timing property outside the embedding, its functional content is
byte equality). -/
def verifyDodoSignature (hmacHex : String → String → String)
    (rawBody signatureHeader secret : String) : Bool :=
  let receivedSignature := stripSha256 signatureHeader
  let expectedSignature := hmacHex secret rawBody
  let receivedBuffer := hexDecode receivedSignature.data
  let expectedBuffer := hexDecode expectedSignature.data
  if receivedBuffer.length ≠ expectedBuffer.length then false
  else receivedBuffer == expectedBuffer

/-! ## Data model for the webhook side (tables touched by the ingestor and
the subscription state machine) -/

/-- A `subscription_events` row (the WebhookEvent ledger).  Rows written by
`handleWebhook` carry the derived event id; rows written by
`logSubscriptionEvent` omit it (`event_id` null). -/
structure EventRow where
  tenant_id : Option String
  event_type : String
  event_id : Option String
  created_at : Nat
deriving DecidableEq

/-- A `tenant_subscriptions` row. -/
structure SubRow where
  tenant_id : String
  plan_id : String
  status : String
  dodo_subscription_id : Option String
  current_period_start : Option Nat
  current_period_end : Option Nat
  grace_period_until : Option Nat
  canceled_at : Option Nat
  upgrade_pending : Bool
  updated_at : Option Nat
deriving DecidableEq

/-- An `upgrade_history` row as inserted by `handlePaymentSuccess`. -/
structure HistRow where
  tenant_id : String
  plan_id : String
  amount_paid : Option Nat
  dodo_payment_id : Option String
  status : String
  processed_at : Nat
deriving DecidableEq

/-- A `tenant_usage` row (never touched by the webhook path; carried so that
idempotency statements cover the usage ledger as well). -/
structure TenantUsageRow where
  tenant_id : String
  month : Nat
  reports_sent : Nat
  client_count : Nat
  data_sources_connected : Nat
deriving DecidableEq

/-- The store state visible to the webhook ingestor and the state machine. -/
structure DB where
  events : List EventRow
  subs : List SubRow
  history : List HistRow
  usage : List TenantUsageRow
deriving DecidableEq

/-! ## Webhook payload

`JSON.parse(rawBody)` yields a structured payload; the embedding names each
path into the parsed object that the ingestor or a handler reads. -/

/-- The fields of the parsed webhook body that the source reads. -/
structure WebhookPayload where
  id : Option String
  event_id : Option String
  data_id : Option String
  type : Option String
  event : Option String
  meta_tenant : Option String
  data_meta_tenant : Option String
  data_object_id : Option String
  data_subscription_id : Option String
  subscription : Option String
  data_amount_paid : Option Nat
  amount : Option Nat
  status : Option String
  current_period_end : Option Nat
  cancel_at_period_end : Option Bool
deriving DecidableEq

/-- `payload.id || payload.event_id || payload.data?.id ||
webhook_Date.now()`: the derived stable event id.  Every link of the
`||` chain is truthiness-tested, so an empty-string `data.id` also falls
through to the generated (non-deduplicable) fallback id. -/
def eventIdOf (payload : WebhookPayload) (now : Nat) : String :=
  (jsOrS payload.id (jsOrS payload.event_id (strTruthy payload.data_id))).getD
    ("webhook_" ++ toString now)

/-- `payload.type || payload.event || 'unknown'`: an empty-string `event`
falls through to `unknown`. -/
def eventTypeOf (payload : WebhookPayload) : String :=
  (jsOrS payload.type (strTruthy payload.event)).getD "unknown"

/-- `payload.metadata?.reportflow_tenant_id ||
payload.data?.metadata?.reportflow_tenant_id || null`: an empty-string
tenant id falls through to null. -/
def tenantIdOf (payload : WebhookPayload) : Option String :=
  jsOrS payload.meta_tenant (strTruthy payload.data_meta_tenant)

/-- `payload.data?.object?.id || payload.data?.subscription_id ||
payload.subscription` as read by `processWebhookEvent`. -/
def subscriptionIdOf (payload : WebhookPayload) : Option String :=
  jsOrS payload.data_object_id (jsOrS payload.data_subscription_id payload.subscription)

/-! ## Subscription state machine handlers (lines 950-1081)

Supabase `update(...).eq('dodo_subscription_id', sid)` updates every row
whose `dodo_subscription_id` equals `sid` (SQL equality: a null column never
matches); `select(...).eq(...).single()` yields the first matching row. -/

/-- Model of `handlePaymentSuccess(subscriptionId, paymentData)`: when a
subscription id is present, set the matching rows to `status = 'active'`,
clear `grace_period_until`, stamp `updated_at`; then look the subscription up
and, when found, append an `upgrade_history` row with the paid amount
(`a || b || null`: a zero or absent amount is stored as null). -/
def handlePaymentSuccess (subscriptionId : Option String)
    (payload : WebhookPayload) (now : Nat) (db : DB) : DB :=
  let db1 : DB :=
    match strTruthy subscriptionId with
    | some sid =>
      { db with
        subs := db.subs.map fun r =>
          if r.dodo_subscription_id = some sid then
            { r with status := "active", grace_period_until := none,
                     updated_at := some now }
          else r }
    | none => db
  let found : Option SubRow :=
    match strTruthy subscriptionId with
    | some sid => db1.subs.find? fun r => r.dodo_subscription_id == some sid
    | none => none
  match found with
  | some sub =>
    { db1 with
      history := db1.history ++
        [{ tenant_id := sub.tenant_id, plan_id := sub.plan_id,
           amount_paid := jsOrN payload.data_amount_paid
             (natTruthy payload.amount),
           dodo_payment_id := strTruthy payload.id,
           status := "completed", processed_at := now }] }
  | none => db1

/-- Model of `handlePaymentFailure(subscriptionId, paymentData)`: when a
subscription id is present, set `grace_period_until = now + 7 days` and stamp
`updated_at` on the matching rows; then look the subscription up and, when
found, log a `payment_failed` event against its tenant. -/
def handlePaymentFailure (subscriptionId : Option String)
    (_payload : WebhookPayload) (now : Nat) (db : DB) : DB :=
  match strTruthy subscriptionId with
  | none => db
  | some sid =>
    let gracePeriodUntil := calculatePeriodEnd 7 now
    let subs1 := db.subs.map fun r =>
      if r.dodo_subscription_id = some sid then
        { r with grace_period_until := some gracePeriodUntil,
                 updated_at := some now }
      else r
    let db1 := { db with subs := subs1 }
    match subs1.find? (fun r => r.dodo_subscription_id == some sid) with
    | some sub =>
      { db1 with
        events := db1.events ++
          [{ tenant_id := some sub.tenant_id, event_type := "payment_failed",
             event_id := none, created_at := now }] }
    | none => db1

/-- Model of `handleSubscriptionCanceled(subscriptionId, _)`: when a
subscription id is present, set `status = 'canceled'` and `canceled_at = now`
on the matching rows. -/
def handleSubscriptionCanceled (subscriptionId : Option String)
    (now : Nat) (db : DB) : DB :=
  match strTruthy subscriptionId with
  | none => db
  | some sid =>
    { db with
      subs := db.subs.map fun r =>
        if r.dodo_subscription_id = some sid then
          { r with status := "canceled", canceled_at := some now,
                   updated_at := some now }
        else r }

/-- Model of `handleSubscriptionUpdated(subscriptionId, subscriptionData)`:
merge `status` and `current_period_end` when present, derive `canceled_at`
from `cancel_at_period_end` when that flag is defined, always stamp
`updated_at`. -/
def handleSubscriptionUpdated (subscriptionId : Option String)
    (payload : WebhookPayload) (now : Nat) (db : DB) : DB :=
  match strTruthy subscriptionId with
  | none => db
  | some sid =>
    { db with
      subs := db.subs.map fun r =>
        if r.dodo_subscription_id = some sid then
          let r1 :=
            match strTruthy payload.status with
            | some st => { r with status := st }
            | none => r
          let r2 :=
            match payload.current_period_end with
            | some pe => { r1 with current_period_end := some pe }
            | none => r1
          let r3 :=
            match payload.cancel_at_period_end with
            | some b =>
              { r2 with
                canceled_at := if b then payload.current_period_end else none }
            | none => r2
          { r3 with updated_at := some now }
        else r }

/-- Model of `processWebhookEvent(eventType, payload, tenantId)`: route by
event type to a handler; unknown types are logged and ignored; handler
exceptions are caught so the dispatcher never throws. -/
def processWebhookEvent (eventType : String) (payload : WebhookPayload)
    (now : Nat) (db : DB) : DB :=
  let subscriptionId := subscriptionIdOf payload
  if eventType = "payment.succeeded" ∨ eventType = "invoice.paid" then
    handlePaymentSuccess subscriptionId payload now db
  else if eventType = "payment.failed" ∨ eventType = "invoice.payment_failed" then
    handlePaymentFailure subscriptionId payload now db
  else if eventType = "subscription.cancelled" ∨
          eventType = "customer.subscription.deleted" then
    handleSubscriptionCanceled subscriptionId now db
  else if eventType = "subscription.updated" ∨
          eventType = "customer.subscription.updated" then
    handleSubscriptionUpdated subscriptionId payload now db
  else
    db

/-! ## Webhook ingestor (`handleWebhook`, lines 645-725) -/

/-- The value `handleWebhook` resolves with: either the duplicate no-op
`{processed: false, reason: 'duplicate', eventId, eventType}` or the success
`{processed: true, eventId, eventType, tenantId}`. -/
structure WebhookResult where
  processed : Bool
  reason : Option String
  eventId : String
  eventType : String
  tenantId : Option String
deriving DecidableEq

/-- The `subscription_events` insert performed before dispatch. -/
def insertEventRow (db : DB) (tenantId : Option String)
    (eventType eventId : String) (now : Nat) : DB :=
  { db with
    events := db.events ++
      [{ tenant_id := tenantId, event_type := eventType,
         event_id := some eventId, created_at := now }] }

/-- The duplicate lookup: does `subscription_events` already hold a row with
this `event_id`? -/
def hasDuplicateEvent (db : DB) (eventId : String) : Bool :=
  db.events.any fun r => r.event_id == some eventId

/-- `handleWebhook` after signature verification has passed: parse the raw
body (a parse failure is a thrown `SyntaxError`), derive the event id, type
and tenant, stop on a duplicate event id, otherwise insert the event row and
only then dispatch to the state machine. -/
def handleWebhookVerified (parseBody : String → Option WebhookPayload)
    (rawBody : String) (now : Nat) (db : DB) :
    Except String WebhookResult × DB :=
  match parseBody rawBody with
  | none => (.error "Unexpected token in JSON", db)
  | some payload =>
    let eventId := eventIdOf payload now
    let eventType := eventTypeOf payload
    let tenantId := tenantIdOf payload
    if hasDuplicateEvent db eventId then
      (.ok { processed := false, reason := some "duplicate",
             eventId := eventId, eventType := eventType, tenantId := none },
       db)
    else
      let db1 := insertEventRow db tenantId eventType eventId now
      let db2 := processWebhookEvent eventType payload now db1
      (.ok { processed := true, reason := none, eventId := eventId,
             eventType := eventType, tenantId := tenantId },
       db2)

/-- The verification step of `handleWebhook` as a predicate: with no secret
configured the request proceeds (with a warning); with a secret it proceeds
only when a signature header is present and `verifyDodoSignature` accepts
it. -/
def passesVerification (hmacHex : String → String → String)
    (secret sigHeader : Option String) (rawBody : String) : Bool :=
  match secret with
  | none => true
  | some sec =>
    match sigHeader with
    | none => false
    | some sig => verifyDodoSignature hmacHex rawBody sig sec

/-- Model of `handleWebhook(rawBody, headers, webhookSecret)`.  `hmacHex` is
the HMAC-SHA256 primitive, `parseBody` is `JSON.parse`, `sigHeader` is the
first of the four accepted signature headers that is present, `secret` is the
configured webhook secret (`none` disables verification with a warning).  The
returned pair carries the resolved/thrown outcome and the store state. -/
def handleWebhook (hmacHex : String → String → String)
    (parseBody : String → Option WebhookPayload)
    (secret : Option String) (sigHeader : Option String)
    (rawBody : String) (now : Nat) (db : DB) :
    Except String WebhookResult × DB :=
  match secret with
  | none => handleWebhookVerified parseBody rawBody now db
  | some sec =>
    match sigHeader with
    | none => (.error "Missing webhook signature header", db)
    | some sig =>
      if verifyDodoSignature hmacHex rawBody sig sec then
        handleWebhookVerified parseBody rawBody now db
      else
        (.error "Invalid webhook signature", db)

/-! ## Usage Ledger and Gate (`checkUsageLimits`, lines 796-921)

The two supabase reads inside the `try` block are modelled as explicit query
results: `.ok` is a returned row, `.errRes` is a returned
`{data: null, error}` pair (for example `.single()` finding no row), and
`.thrown` is a rejected promise, which lands in the outer `catch`. -/

/-- Outcome of one awaited supabase query. -/
inductive QueryResult (α : Type) where
  | ok (a : α)
  | errRes (msg : String)
  | thrown (msg : String)
deriving DecidableEq

/-- The joined `plans` limits (`null` = unlimited). -/
structure PlanLimits where
  max_reports_per_month : Option Nat
  max_clients : Option Nat
  max_data_sources : Option Nat
deriving DecidableEq

/-- The subscription row as selected by the gate, with the joined plan
(`plans` can be null when the join finds nothing). -/
structure SubJoin where
  status : String
  grace_period_until : Option Nat
  plan_id : String
  plans : Option PlanLimits
deriving DecidableEq

/-- The current month's usage counters as selected by the gate. -/
structure UsageCounters where
  reports_sent : Nat
  client_count : Nat
  data_sources_connected : Nat
deriving DecidableEq

/-- The decision object returned by `checkUsageLimits`; absent JavaScript
fields are `none`. -/
structure Decision where
  allowed : Bool
  reason : Option String
  limitType : Option String
  usage : Option UsageCounters
  limits : Option PlanLimits
  grace_period_until : Option Nat
  errorMsg : Option String
deriving DecidableEq

/-- The per-counter denial condition
`plan.max_x && currentUsage.x >= plan.max_x`: the limit must be truthy
(present and nonzero) and reached. -/
def limitHit (limit : Option Nat) (used : Nat) : Bool :=
  match natTruthy limit with
  | some m => used ≥ m
  | none => false

/-- `const currentUsage = usage || {reports_sent: 0, ...}`: a month with no
usage row counts as all-zero counters. -/
def gateUsage : QueryResult UsageCounters → UsageCounters
  | .ok u => u
  | _ => { reports_sent := 0, client_count := 0, data_sources_connected := 0 }

/-- `const plan = subscription.plans || {}`. -/
def gatePlan (s : SubJoin) : PlanLimits :=
  s.plans.getD
    { max_reports_per_month := none, max_clients := none,
      max_data_sources := none }

/-- The body of `checkUsageLimits` inside the `try`; a `.error` is a thrown
exception reaching the outer `catch`. -/
def checkUsageLimitsBody (subQ : QueryResult SubJoin)
    (usageQ : QueryResult UsageCounters) (now : Nat) (usageType : String) :
    Except String Decision :=
  match subQ with
  | .thrown m => .error m
  | .errRes m =>
    .ok { allowed := false, reason := some "No active subscription found",
          limitType := none, usage := none, limits := none,
          grace_period_until := none, errorMsg := some m }
  | .ok subscription =>
    if subscription.status ≠ "active" then
      match subscription.grace_period_until with
      | some g =>
        if now < g then
          .ok { allowed := true, reason := some "In grace period",
                limitType := none, usage := none, limits := none,
                grace_period_until := some g, errorMsg := none }
        else
          .ok { allowed := false,
                reason := some ("Subscription is " ++ subscription.status),
                limitType := none, usage := none, limits := none,
                grace_period_until := none, errorMsg := none }
      | none =>
        .ok { allowed := false,
              reason := some ("Subscription is " ++ subscription.status),
              limitType := none, usage := none, limits := none,
              grace_period_until := none, errorMsg := none }
    else
      match usageQ with
      | .thrown m => .error m
      | _ =>
        let currentUsage : UsageCounters := gateUsage usageQ
        let plan : PlanLimits := gatePlan subscription
        let hit : Bool × String :=
          if usageType = "reports" then
            (limitHit plan.max_reports_per_month currentUsage.reports_sent,
             "reports")
          else if usageType = "clients" then
            (limitHit plan.max_clients currentUsage.client_count, "clients")
          else if usageType = "data_sources" then
            (limitHit plan.max_data_sources currentUsage.data_sources_connected,
             "data_sources")
          else
            (limitHit plan.max_reports_per_month currentUsage.reports_sent,
             "reports")
        if hit.1 then
          .ok { allowed := false, reason := some "Plan limit exceeded",
                limitType := some hit.2, usage := some currentUsage,
                limits := some plan, grace_period_until := none,
                errorMsg := none }
        else
          .ok { allowed := true, reason := none, limitType := none,
                usage := some currentUsage, limits := some plan,
                grace_period_until := none, errorMsg := none }

/-- Model of `checkUsageLimits(tenantId, usageType = 'reports')`: run the
body and, on a thrown error, fail open with the error surfaced in the
response. -/
def checkUsageLimits (subQ : QueryResult SubJoin)
    (usageQ : QueryResult UsageCounters) (now : Nat) (usageType : String) :
    Decision :=
  match checkUsageLimitsBody subQ usageQ now usageType with
  | .ok d => d
  | .error m =>
    { allowed := true,
      reason := some "Error checking usage, allowing request",
      limitType := none, usage := none, limits := none,
      grace_period_until := none, errorMsg := some m }

/-! ## Provider Gateway (`createCustomer`, lines 443-520) -/

/-- The shapes in which the provider response may carry the customer id. -/
structure CustResp where
  id : Option String
  customer_id : Option String
  data_id : Option String
  data_customer_id : Option String
deriving DecidableEq

/-- `dodoCustomer?.id || dodoCustomer?.customer_id || dodoCustomer?.data?.id
|| dodoCustomer?.data?.customer_id || null`: the chain ends in `null` and
every link is truthiness-tested, so an empty-string id yields `none` and the
subsequent `!customerId` guard throws. -/
def extractCustomerId (r : CustResp) : Option String :=
  jsOrS r.id
    (jsOrS r.customer_id (jsOrS r.data_id (strTruthy r.data_customer_id)))

/-- Outcome of the `tenants` update persisting `dodo_customer_id`: success, a
returned `updateError`, or a rejected promise caught by the inner
`catch (dbErr)`. -/
inductive PersistOutcome where
  | okP
  | errResP (msg : String)
  | threwP (msg : String)
deriving DecidableEq

/-- A `tenants` row as far as the gateway touches it. -/
structure TenantRow where
  id : String
  dodo_customer_id : Option String
  updated_at : Option Nat
deriving DecidableEq

/-- The success value of `createCustomer`. -/
structure CreateCustomerOk where
  success : Bool
  customerId : String
  endpointUsed : String
  tenantId : String
deriving DecidableEq

/-- Model of `createCustomer(tenantId, customerPayload)`: validate the tenant
id and email, call `tryEndpoints` against the four candidate customer paths,
extract the customer id from the response, then attempt to persist it onto
the tenant row — an `updateError` or a thrown store error is logged and
deliberately does not fail the operation.  The `Except.error` cases are the
thrown exceptions of the source; a `JsError` from the resolver propagates. -/
def createCustomer (tenantId : Option String) (email : Option String)
    (world : List (String × (Nat → AxOutcome CustResp)))
    (persist : PersistOutcome) (now : Nat) (tenants : List TenantRow) :
    Except String CreateCustomerOk × List TenantRow :=
  match strTruthy tenantId with
  | none => (.error "tenantId is required to create customer", tenants)
  | some tid =>
    match strTruthy email with
    | none => (.error "Customer email is required", tenants)
    | some _ =>
      match tryEndpoints world 3 with
      | .error _ => (.error "ReferenceError: lastError is not defined", tenants)
      | .ok res =>
        match extractCustomerId res.data with
        | none => (.error "Dodo response did not contain a customer ID", tenants)
        | some cid =>
          let tenants1 : List TenantRow :=
            match persist with
            | .okP =>
              tenants.map fun t =>
                if t.id = tid then
                  { t with dodo_customer_id := some cid, updated_at := some now }
                else t
            | .errResP _ => tenants
            | .threwP _ => tenants
          (.ok { success := true, customerId := cid,
                 endpointUsed := res.endpointUsed, tenantId := tid },
           tenants1)

/-! ## Helper lemmas -/

/-- `handlePaymentSuccess` writes only to `tenant_subscriptions` and
`upgrade_history`; the event ledger is untouched. -/
lemma events_handlePaymentSuccess (sid : Option String)
    (p : WebhookPayload) (now : Nat) (db : DB) :
    (handlePaymentSuccess sid p now db).events = db.events := by
  unfold handlePaymentSuccess
  cases strTruthy sid <;> dsimp only <;> (split <;> rfl)

/-- Existing event rows survive `handlePaymentFailure` (it may append a
`payment_failed` log row but removes nothing). -/
lemma mem_events_handlePaymentFailure {r : EventRow} (sid : Option String)
    (p : WebhookPayload) (now : Nat) (db : DB) (h : r ∈ db.events) :
    r ∈ (handlePaymentFailure sid p now db).events := by
  unfold handlePaymentFailure
  cases strTruthy sid <;> dsimp only
  · exact h
  · split
    · exact List.mem_append_left _ h
    · exact h

/-- `handleSubscriptionCanceled` leaves the event ledger untouched. -/
lemma events_handleSubscriptionCanceled (sid : Option String)
    (now : Nat) (db : DB) :
    (handleSubscriptionCanceled sid now db).events = db.events := by
  unfold handleSubscriptionCanceled
  cases strTruthy sid <;> rfl

/-- `handleSubscriptionUpdated` leaves the event ledger untouched. -/
lemma events_handleSubscriptionUpdated (sid : Option String)
    (p : WebhookPayload) (now : Nat) (db : DB) :
    (handleSubscriptionUpdated sid p now db).events = db.events := by
  unfold handleSubscriptionUpdated
  cases strTruthy sid <;> rfl

/-- No state-machine handler removes rows from the event ledger. -/
lemma mem_events_processWebhookEvent {r : EventRow} (et : String)
    (p : WebhookPayload) (now : Nat) (db : DB) (h : r ∈ db.events) :
    r ∈ (processWebhookEvent et p now db).events := by
  unfold processWebhookEvent
  split
  · rw [events_handlePaymentSuccess]; exact h
  · split
    · exact mem_events_handlePaymentFailure _ _ _ _ h
    · split
      · rw [events_handleSubscriptionCanceled]; exact h
      · split
        · rw [events_handleSubscriptionUpdated]; exact h
        · exact h

/-- A stored event id is still a stored event id after dispatch. -/
lemma hasDuplicateEvent_processWebhookEvent (et : String)
    (p : WebhookPayload) (now : Nat) (db : DB) (eid : String)
    (h : hasDuplicateEvent db eid = true) :
    hasDuplicateEvent (processWebhookEvent et p now db) eid = true := by
  unfold hasDuplicateEvent at h ⊢
  rw [List.any_eq_true] at h ⊢
  obtain ⟨r, hr, hpr⟩ := h
  exact ⟨r, mem_events_processWebhookEvent et p now db hr, hpr⟩

/-- The freshly inserted event row makes its id a duplicate. -/
lemma hasDuplicateEvent_insertEventRow (db : DB) (tid : Option String)
    (et eid : String) (now : Nat) :
    hasDuplicateEvent (insertEventRow db tid et eid now) eid = true := by
  unfold hasDuplicateEvent insertEventRow
  rw [List.any_eq_true]
  refine ⟨_, List.mem_append_right _ (List.mem_singleton.mpr rfl), ?_⟩
  simp

/-- When verification passes, `handleWebhook` proceeds to the verified
pipeline. -/
lemma handleWebhook_of_passes (hmacHex : String → String → String)
    (parseBody : String → Option WebhookPayload)
    (secret sigHeader : Option String) (rawBody : String) (now : Nat)
    (db : DB) (h : passesVerification hmacHex secret sigHeader rawBody = true) :
    handleWebhook hmacHex parseBody secret sigHeader rawBody now db
      = handleWebhookVerified parseBody rawBody now db := by
  unfold handleWebhook
  unfold passesVerification at h
  cases secret with
  | none => rfl
  | some sec =>
    cases sigHeader with
    | none => exact absurd h (by simp)
    | some sig =>
      simp only at h
      simp only [h, if_true]

/-- A payload that carries an id (in any of the three positions) derives the
same event id at any two times. -/
lemma eventIdOf_time_independent (payload : WebhookPayload)
    (h : (jsOrS payload.id
          (jsOrS payload.event_id (strTruthy payload.data_id))).isSome = true)
    (t1 t2 : Nat) : eventIdOf payload t1 = eventIdOf payload t2 := by
  unfold eventIdOf
  cases hj : jsOrS payload.id (jsOrS payload.event_id (strTruthy payload.data_id)) with
  | none => rw [hj] at h; simp at h
  | some s => rfl

/-! ## Claim theorems -/

/-- Claim C3 (code bug, evaluation at the failing input): with two candidate
paths whose every attempt raises a network error, `tryEndpoints` does not
return the structured `{ok: false, error: ..., candidatePathsTried}` value
the claim describes — control reaches the final return statement, whose read
of the block-scoped `lastError` throws
`ReferenceError: lastError is not defined`. -/
theorem tryEndpoints_exhaustion_throws_reference_error :
    tryEndpoints (δ := Unit)
      [("/v1/customers", fun _ => .exn "connect ECONNREFUSED"),
       ("/api/v1/customers", fun _ => .exn "connect ECONNREFUSED")] 3
      = .error (.referenceError "lastError") := by
  rfl

/-- Claim C4 (code bug, evaluation at the failing input): the axios
instance keeps its default `validateStatus`, so a 404 on path A rejects the
awaited call and lands in the `catch`, where the manual loop retries it with
backoff like any other error — A's full retry budget (3 attempts) is
exhausted, recorded as a thrown `Request failed with status code 404` at
attempt 3, before path B's 200 succeeds.  The claimed non-retryable-4xx
short-circuit (success via B without exhausting A's budget) is false of the
code: the status-based 4xx break it relies on is dead.  The 2xx immediate
success itself does hold, as the first conjunct shows. -/
theorem tryEndpoints_404_retried_to_exhaustion :
    tryEndpointsHttp (δ := Unit)
      [("/v1/customers", fun _ => .status 404 ()),
       ("/api/v1/customers", fun _ => .status 200 ())] 3
      = .ok ⟨(), "/api/v1/customers", 200⟩
    ∧ runPath (fun _ => axiosAwait (δ := Unit) (.status 404 ())) 3
      = .failed (some (.exnErr "Request failed with status code 404" 3)) 3 := by
  constructor
  · rfl
  · rfl

/-- Claim C2: for a subscription whose status is not `active`, the gate
allows exactly when `grace_period_until` is set and the current time is
strictly before it (reason reporting the grace period), and otherwise denies
with the concrete status as the reason; concretely, with `status = past_due`
and `grace_period_until = now + 1`, the gate allows at `now` and denies at
`now + 2`. -/
theorem gate_inactive_status_grace_semantics :
    (∀ (s : SubJoin) (uQ : QueryResult UsageCounters) (now : Nat)
       (usageType : String), s.status ≠ "active" →
      ((checkUsageLimits (.ok s) uQ now usageType).allowed = true ↔
        ∃ g, s.grace_period_until = some g ∧ now < g)
      ∧ (∀ g, s.grace_period_until = some g → now < g →
          checkUsageLimits (.ok s) uQ now usageType
            = { allowed := true, reason := some "In grace period",
                limitType := none, usage := none, limits := none,
                grace_period_until := some g, errorMsg := none })
      ∧ (∀ g, s.grace_period_until = some g → g ≤ now →
          checkUsageLimits (.ok s) uQ now usageType
            = { allowed := false,
                reason := some ("Subscription is " ++ s.status),
                limitType := none, usage := none, limits := none,
                grace_period_until := none, errorMsg := none })
      ∧ (s.grace_period_until = none →
          checkUsageLimits (.ok s) uQ now usageType
            = { allowed := false,
                reason := some ("Subscription is " ++ s.status),
                limitType := none, usage := none, limits := none,
                grace_period_until := none, errorMsg := none }))
    ∧ (∀ (uQ : QueryResult UsageCounters) (now : Nat) (pid : String)
         (pl : Option PlanLimits),
        (checkUsageLimits
          (.ok { status := "past_due", grace_period_until := some (now + 1),
                 plan_id := pid, plans := pl }) uQ now "reports").allowed = true
        ∧ (checkUsageLimits
            (.ok { status := "past_due", grace_period_until := some (now + 1),
                   plan_id := pid, plans := pl }) uQ (now + 2)
            "reports").allowed = false) := by
  constructor
  · intro s uQ now usageType hst
    refine ⟨?_, ?_, ?_, ?_⟩
    · cases hg : s.grace_period_until with
      | none => simp [checkUsageLimits, checkUsageLimitsBody, hst, hg]
      | some g =>
        by_cases hlt : now < g <;>
          simp [checkUsageLimits, checkUsageLimitsBody, hst, hg, hlt]
    · intro g hg hlt
      simp [checkUsageLimits, checkUsageLimitsBody, hst, hg, hlt]
    · intro g hg hle
      have hlt : ¬ now < g := by omega
      simp [checkUsageLimits, checkUsageLimitsBody, hst, hg, hlt]
    · intro hg
      simp [checkUsageLimits, checkUsageLimitsBody, hst, hg]
  · intro uQ now pid pl
    constructor
    · simp [checkUsageLimits, checkUsageLimitsBody]
    · simp [checkUsageLimits, checkUsageLimitsBody]

/-- Witness for C2: the boundary example at concrete inputs — a `past_due`
subscription with a one-second grace window is allowed at `t = 10` and
denied at `t = 12`. -/
theorem gate_inactive_status_grace_semantics_witness :
    (checkUsageLimits
      (.ok { status := "past_due", grace_period_until := some 11,
             plan_id := "starter", plans := none })
      (.errRes "no usage row") 10 "reports").allowed = true
    ∧ (checkUsageLimits
        (.ok { status := "past_due", grace_period_until := some 11,
               plan_id := "starter", plans := none })
        (.errRes "no usage row") 12 "reports").allowed = false :=
  gate_inactive_status_grace_semantics.2 (.errRes "no usage row") 10
    "starter" none

/-- For an active subscription with a nonzero reports limit, the gate reduces
to the boundary comparison between the limit and the month's count. -/
lemma gate_active_reports_eq (s : SubJoin) (p : PlanLimits) (m : Nat)
    (u : UsageCounters) (now : Nat) (hst : s.status = "active")
    (hp : s.plans = some p) (hm : p.max_reports_per_month = some m)
    (hm0 : 0 < m) :
    checkUsageLimits (.ok s) (.ok u) now "reports"
      = if m ≤ u.reports_sent then
          { allowed := false, reason := some "Plan limit exceeded",
            limitType := some "reports", usage := some u, limits := some p,
            grace_period_until := none, errorMsg := none }
        else
          { allowed := true, reason := none, limitType := none,
            usage := some u, limits := some p, grace_period_until := none,
            errorMsg := none } := by
  have hmne : ¬ m = 0 := by omega
  by_cases hle : m ≤ u.reports_sent <;>
    simp [checkUsageLimits, checkUsageLimitsBody, hst, hp, gatePlan,
          gateUsage, limitHit, natTruthy, hm, hmne, hle, ge_iff_le]

/-- Claim C6: for an active subscription whose plan sets a (nonzero)
`max_reports_per_month`, the gate for usage type `reports` denies exactly
when the month's `reports_sent` has reached the limit, reporting the limit
type with the usage and limit numbers, and allows (returning current usage)
otherwise; a month with no usage row behaves exactly as zero usage.  (A limit
set to `0` behaves as unlimited — that truthiness behaviour is the subject of
the zero-limit claim.)  Concretely with limit 5: `reports_sent = 5` denies,
`reports_sent = 4` allows. -/
theorem gate_reports_quota_boundary :
    (∀ (s : SubJoin) (p : PlanLimits) (m : Nat) (u : UsageCounters)
       (now : Nat),
      s.status = "active" → s.plans = some p →
      p.max_reports_per_month = some m → 0 < m →
      (((checkUsageLimits (.ok s) (.ok u) now "reports").allowed = false ↔
          m ≤ u.reports_sent)
        ∧ (m ≤ u.reports_sent →
            checkUsageLimits (.ok s) (.ok u) now "reports"
              = { allowed := false, reason := some "Plan limit exceeded",
                  limitType := some "reports", usage := some u,
                  limits := some p, grace_period_until := none,
                  errorMsg := none })
        ∧ (u.reports_sent < m →
            checkUsageLimits (.ok s) (.ok u) now "reports"
              = { allowed := true, reason := none, limitType := none,
                  usage := some u, limits := some p,
                  grace_period_until := none, errorMsg := none })
        ∧ (∀ msg, checkUsageLimits (.ok s) (.errRes msg) now "reports"
            = checkUsageLimits
                (.ok s)
                (.ok { reports_sent := 0, client_count := 0,
                       data_sources_connected := 0 }) now "reports")))
    ∧ (∀ (now : Nat) (c ds : Nat),
        (checkUsageLimits
          (.ok { status := "active", grace_period_until := none,
                 plan_id := "starter",
                 plans := some { max_reports_per_month := some 5,
                                 max_clients := none,
                                 max_data_sources := none } })
          (.ok { reports_sent := 5, client_count := c,
                 data_sources_connected := ds }) now "reports").allowed = false
        ∧ (checkUsageLimits
            (.ok { status := "active", grace_period_until := none,
                   plan_id := "starter",
                   plans := some { max_reports_per_month := some 5,
                                   max_clients := none,
                                   max_data_sources := none } })
            (.ok { reports_sent := 4, client_count := c,
                   data_sources_connected := ds }) now
            "reports").allowed = true) := by
  constructor
  · intro s p m u now hst hp hm hm0
    have heq := gate_active_reports_eq s p m u now hst hp hm hm0
    refine ⟨?_, ?_, ?_, ?_⟩
    · rw [heq]
      by_cases hle : m ≤ u.reports_sent <;> simp [hle]
    · intro hle
      rw [heq, if_pos hle]
    · intro hlt
      rw [heq, if_neg (by omega)]
    · intro msg
      simp [checkUsageLimits, checkUsageLimitsBody, hst, gateUsage]
  · intro now c ds
    constructor
    · simp [checkUsageLimits, checkUsageLimitsBody, gatePlan, gateUsage,
            limitHit, natTruthy]
    · simp [checkUsageLimits, checkUsageLimitsBody, gatePlan, gateUsage,
            limitHit, natTruthy]

/-- Witness for C6 at concrete inputs: limit 5, usage 4 in the current month,
the gate allows and echoes the usage and limits. -/
theorem gate_reports_quota_boundary_witness :
    checkUsageLimits
      (.ok { status := "active", grace_period_until := none,
             plan_id := "starter",
             plans := some { max_reports_per_month := some 5,
                             max_clients := none,
                             max_data_sources := none } })
      (.ok { reports_sent := 4, client_count := 0,
             data_sources_connected := 0 }) 0 "reports"
      = { allowed := true, reason := none, limitType := none,
          usage := some { reports_sent := 4, client_count := 0,
                          data_sources_connected := 0 },
          limits := some { max_reports_per_month := some 5,
                           max_clients := none, max_data_sources := none },
          grace_period_until := none, errorMsg := none } :=
  (gate_reports_quota_boundary.1
    { status := "active", grace_period_until := none, plan_id := "starter",
      plans := some { max_reports_per_month := some 5, max_clients := none,
                      max_data_sources := none } }
    { max_reports_per_month := some 5, max_clients := none,
      max_data_sources := none } 5
    { reports_sent := 4, client_count := 0, data_sources_connected := 0 }
    0 rfl rfl rfl (by decide)).2.2.1 (by decide)

/-- Claim C8: when a store read throws during the check — the subscription
query or, for an active subscription, the usage query — the gate fails open:
the decision is `allowed: true` with the error surfaced in its metadata. -/
theorem gate_fails_open_on_internal_error :
    (∀ (m : String) (uQ : QueryResult UsageCounters) (now : Nat)
       (usageType : String),
      checkUsageLimits (.thrown m) uQ now usageType
        = { allowed := true,
            reason := some "Error checking usage, allowing request",
            limitType := none, usage := none, limits := none,
            grace_period_until := none, errorMsg := some m })
    ∧ (∀ (s : SubJoin) (m : String) (now : Nat) (usageType : String),
        s.status = "active" →
        checkUsageLimits (.ok s) (.thrown m) now usageType
          = { allowed := true,
              reason := some "Error checking usage, allowing request",
              limitType := none, usage := none, limits := none,
              grace_period_until := none, errorMsg := some m }) := by
  constructor
  · intro m uQ now usageType
    rfl
  · intro s m now usageType hst
    simp [checkUsageLimits, checkUsageLimitsBody, hst]

/-- Witness for C8 at concrete inputs: an active subscription whose usage
query rejects still yields an allow decision carrying the error. -/
theorem gate_fails_open_on_internal_error_witness :
    checkUsageLimits
      (.ok { status := "active", grace_period_until := none,
             plan_id := "starter", plans := none })
      (.thrown "fetch failed") 0 "reports"
      = { allowed := true,
          reason := some "Error checking usage, allowing request",
          limitType := none, usage := none, limits := none,
          grace_period_until := none, errorMsg := some "fetch failed" } :=
  gate_fails_open_on_internal_error.2
    { status := "active", grace_period_until := none, plan_id := "starter",
      plans := none } "fetch failed" 0 "reports" rfl

/-- Claim C10: a limit column equal to `0` is falsy in the denial condition
`plan.max_x && usage >= plan.max_x`, so a zero limit never denies — it
behaves like a null (unlimited) limit — whatever the recorded usage; this
holds for the reports counter (for usage type `reports` and for any usage
type that falls to the default reports check), for `max_clients = 0` under
usage type `clients`, and for `max_data_sources = 0` under usage type
`data_sources`. -/
theorem gate_zero_limit_behaves_unlimited :
    (∀ (s : SubJoin) (p : PlanLimits) (u : UsageCounters) (now : Nat)
       (usageType : String),
      s.status = "active" → s.plans = some p →
      p.max_reports_per_month = some 0 →
      usageType ≠ "clients" → usageType ≠ "data_sources" →
      (checkUsageLimits (.ok s) (.ok u) now usageType).allowed = true)
    ∧ (∀ (s : SubJoin) (p : PlanLimits) (u : UsageCounters) (now : Nat),
        s.status = "active" → s.plans = some p → p.max_clients = some 0 →
        (checkUsageLimits (.ok s) (.ok u) now "clients").allowed = true)
    ∧ (∀ (s : SubJoin) (p : PlanLimits) (u : UsageCounters) (now : Nat),
        s.status = "active" → s.plans = some p →
        p.max_data_sources = some 0 →
        (checkUsageLimits (.ok s) (.ok u) now "data_sources").allowed
          = true) := by
  refine ⟨?_, ?_, ?_⟩
  · intro s p u now usageType hst hp hm hc hd
    by_cases hr : usageType = "reports" <;>
      simp [checkUsageLimits, checkUsageLimitsBody, hst, hp, gatePlan,
            gateUsage, limitHit, natTruthy, hm, hr, hc, hd]
  · intro s p u now hst hp hm
    simp [checkUsageLimits, checkUsageLimitsBody, hst, hp, gatePlan,
          gateUsage, limitHit, natTruthy, hm]
  · intro s p u now hst hp hm
    simp [checkUsageLimits, checkUsageLimitsBody, hst, hp, gatePlan,
          gateUsage, limitHit, natTruthy, hm]

/-- Witness for C10 at concrete inputs: `max_reports_per_month = 0` with a
million reports already sent is still allowed. -/
theorem gate_zero_limit_behaves_unlimited_witness :
    (checkUsageLimits
      (.ok { status := "active", grace_period_until := none,
             plan_id := "free",
             plans := some { max_reports_per_month := some 0,
                             max_clients := some 0,
                             max_data_sources := some 0 } })
      (.ok { reports_sent := 1000000, client_count := 1000000,
             data_sources_connected := 1000000 }) 0 "reports").allowed
      = true :=
  gate_zero_limit_behaves_unlimited.1
    { status := "active", grace_period_until := none, plan_id := "free",
      plans := some { max_reports_per_month := some 0, max_clients := some 0,
                      max_data_sources := some 0 } }
    { max_reports_per_month := some 0, max_clients := some 0,
      max_data_sources := some 0 }
    { reports_sent := 1000000, client_count := 1000000,
      data_sources_connected := 1000000 } 0 "reports" rfl rfl rfl
    (by decide) (by decide)

/-- Claim C9: when the provider call succeeds and a customer id is extracted,
`createCustomer` returns success with that id for every outcome of the
subsequent persistence step — a failed or throwing `tenants` update is logged
but never fails the operation. -/
theorem createCustomer_persistence_failure_nonfatal
    (tid email : String) (htid : tid ≠ "") (hemail : email ≠ "")
    (world : List (String × (Nat → AxOutcome CustResp)))
    (res : TrySuccess CustResp) (hres : tryEndpoints world 3 = .ok res)
    (cid : String) (hcid : extractCustomerId res.data = some cid)
    (persist : PersistOutcome) (now : Nat) (tenants : List TenantRow) :
    (createCustomer (some tid) (some email) world persist now tenants).1
      = .ok { success := true, customerId := cid,
              endpointUsed := res.endpointUsed, tenantId := tid } := by
  unfold createCustomer
  simp [strTruthy, htid, hemail, hres, hcid]

/-- Witness for C9 at concrete inputs: the provider returns the id, the
persistence step throws, and the call still succeeds with the id. -/
theorem createCustomer_persistence_failure_nonfatal_witness :
    (createCustomer (some "tenant-1") (some "a@b.c")
      [("/v1/customers",
        fun _ => .resp 200 { id := some "cus_1", customer_id := none,
                             data_id := none, data_customer_id := none })]
      (.threwP "store unreachable") 0 []).1
      = .ok { success := true, customerId := "cus_1",
              endpointUsed := "/v1/customers", tenantId := "tenant-1" } :=
  createCustomer_persistence_failure_nonfatal "tenant-1" "a@b.c"
    (by decide) (by decide)
    [("/v1/customers",
      fun _ => .resp 200 { id := some "cus_1", customer_id := none,
                           data_id := none, data_customer_id := none })]
    { data := { id := some "cus_1", customer_id := none, data_id := none,
                data_customer_id := none },
      endpointUsed := "/v1/customers", status := 200 } rfl "cus_1" rfl
    (.threwP "store unreachable") 0 []

/-- The grace-period update applied to a matching subscription row. -/
def applyGrace (now : Nat) (r : SubRow) : SubRow :=
  { r with grace_period_until := some (calculatePeriodEnd 7 now),
           updated_at := some now }

/-- The subscriptions table after `handlePaymentFailure` with a nonempty
subscription id is the pointwise update of the matching rows. -/
lemma handlePaymentFailure_subs (sid : String) (hsid : sid ≠ "")
    (payload : WebhookPayload) (now : Nat) (db : DB) :
    (handlePaymentFailure (some sid) payload now db).subs
      = db.subs.map fun r =>
          if r.dodo_subscription_id = some sid then applyGrace now r else r := by
  unfold handlePaymentFailure
  simp only [strTruthy, hsid, if_neg, ite_false]
  split <;> rfl

/-- `handlePaymentFailure` leaves the usage ledger untouched. -/
lemma handlePaymentFailure_usage (sid : String) (hsid : sid ≠ "")
    (payload : WebhookPayload) (now : Nat) (db : DB) :
    (handlePaymentFailure (some sid) payload now db).usage = db.usage := by
  unfold handlePaymentFailure
  simp only [strTruthy, hsid, if_neg, ite_false]
  split <;> rfl

/-- `handlePaymentFailure` leaves the upgrade history untouched. -/
lemma handlePaymentFailure_history (sid : String) (hsid : sid ≠ "")
    (payload : WebhookPayload) (now : Nat) (db : DB) :
    (handlePaymentFailure (some sid) payload now db).history = db.history := by
  unfold handlePaymentFailure
  simp only [strTruthy, hsid, if_neg, ite_false]
  split <;> rfl

/-- Finding a row by subscription id commutes with the grace update, which
preserves that id. -/
lemma find?_map_graceUpdate (sid : String) (now : Nat) (l : List SubRow) :
    (List.find? (fun r => r.dodo_subscription_id == some sid)
      (List.map (fun r =>
        if r.dodo_subscription_id = some sid then
          { r with grace_period_until := some (calculatePeriodEnd 7 now),
                   updated_at := some now }
        else r) l))
    = (List.find? (fun r => r.dodo_subscription_id == some sid) l).map
        (fun r =>
          { r with grace_period_until := some (calculatePeriodEnd 7 now),
                   updated_at := some now }) := by
  induction l with
  | nil => rfl
  | cons a l ih =>
    by_cases ha : a.dodo_subscription_id = some sid
    · simp [List.find?, ha]
    · have hb : (a.dodo_subscription_id == some sid) = false := by
        simp [ha]
      simp [List.find?, ha, hb, ih]

/-- The event ledger after `handlePaymentFailure`: the `payment_failed` log
row is appended against the tenant of the first matching subscription row,
and nothing is logged when no row matches. -/
lemma handlePaymentFailure_events (sid : String) (hsid : sid ≠ "")
    (payload : WebhookPayload) (now : Nat) (db : DB) :
    (handlePaymentFailure (some sid) payload now db).events
      = match db.subs.find? (fun r => r.dodo_subscription_id == some sid) with
        | some r0 =>
          db.events ++
            [{ tenant_id := some r0.tenant_id,
               event_type := "payment_failed", event_id := none,
               created_at := now }]
        | none => db.events := by
  unfold handlePaymentFailure
  simp only [strTruthy, hsid, if_neg, ite_false]
  rw [find?_map_graceUpdate]
  cases db.subs.find? (fun r => r.dodo_subscription_id == some sid) <;> rfl

/-- Claim C7: for a `payment_failed` event carrying a subscription id, the
handler sets `grace_period_until = now + 7 days` (and the update timestamp)
on exactly the subscription rows matched by the external subscription id,
leaving the status and every other field of those rows unchanged and leaving
non-matching rows, the usage ledger and the upgrade history untouched; when a
matching row exists, a `payment_failed` event is logged against its
tenant. -/
theorem payment_failure_sets_grace_frame (sid : String) (hsid : sid ≠ "")
    (payload : WebhookPayload) (now : Nat) (db : DB) :
    (handlePaymentFailure (some sid) payload now db).subs.length
      = db.subs.length
    ∧ (∀ (i : Nat) (r : SubRow), db.subs[i]? = some r →
        (r.dodo_subscription_id = some sid →
          (handlePaymentFailure (some sid) payload now db).subs[i]?
            = some { r with
                     grace_period_until := some (calculatePeriodEnd 7 now),
                     updated_at := some now })
        ∧ (r.dodo_subscription_id ≠ some sid →
            (handlePaymentFailure (some sid) payload now db).subs[i]?
              = some r))
    ∧ (handlePaymentFailure (some sid) payload now db).usage = db.usage
    ∧ (handlePaymentFailure (some sid) payload now db).history = db.history
    ∧ (∀ r0, db.subs.find? (fun r => r.dodo_subscription_id == some sid)
          = some r0 →
        (handlePaymentFailure (some sid) payload now db).events
          = db.events ++
            [{ tenant_id := some r0.tenant_id,
               event_type := "payment_failed", event_id := none,
               created_at := now }])
    ∧ (db.subs.find? (fun r => r.dodo_subscription_id == some sid) = none →
        (handlePaymentFailure (some sid) payload now db).events
          = db.events) := by
  have hsubs := handlePaymentFailure_subs sid hsid payload now db
  have hev := handlePaymentFailure_events sid hsid payload now db
  refine ⟨?_, ?_, handlePaymentFailure_usage sid hsid payload now db,
          handlePaymentFailure_history sid hsid payload now db, ?_, ?_⟩
  · rw [hsubs, List.length_map]
  · intro i r hir
    constructor
    · intro hmatch
      rw [hsubs, List.getElem?_map, hir]
      simp [hmatch, applyGrace]
    · intro hmatch
      rw [hsubs, List.getElem?_map, hir]
      simp [hmatch]
  · intro r0 hr0
    rw [hev, hr0]
  · intro hnone
    rw [hev, hnone]

/-- Witness for C7 at concrete inputs: a store with one matching subscription
row in `past_due`; the row gains the 7-day grace window, its status is
intact, and the failure is logged against its tenant. -/
theorem payment_failure_sets_grace_frame_witness :
    (handlePaymentFailure (some "sub_1")
      { id := none, event_id := none, data_id := none, type := none,
        event := none, meta_tenant := none, data_meta_tenant := none,
        data_object_id := none, data_subscription_id := none,
        subscription := none, data_amount_paid := none, amount := none,
        status := none, current_period_end := none,
        cancel_at_period_end := none } 100
      { events := [],
        subs := [{ tenant_id := "t1", plan_id := "p1", status := "past_due",
                   dodo_subscription_id := some "sub_1",
                   current_period_start := none, current_period_end := none,
                   grace_period_until := none, canceled_at := none,
                   upgrade_pending := false, updated_at := none }],
        history := [], usage := [] }).subs[0]?
      = some { tenant_id := "t1", plan_id := "p1", status := "past_due",
               dodo_subscription_id := some "sub_1",
               current_period_start := none, current_period_end := none,
               grace_period_until := some (calculatePeriodEnd 7 100),
               canceled_at := none, upgrade_pending := false,
               updated_at := some 100 } :=
  ((payment_failure_sets_grace_frame "sub_1" (by decide)
    { id := none, event_id := none, data_id := none, type := none,
      event := none, meta_tenant := none, data_meta_tenant := none,
      data_object_id := none, data_subscription_id := none,
      subscription := none, data_amount_paid := none, amount := none,
      status := none, current_period_end := none,
      cancel_at_period_end := none } 100
    { events := [],
      subs := [{ tenant_id := "t1", plan_id := "p1", status := "past_due",
                 dodo_subscription_id := some "sub_1",
                 current_period_start := none, current_period_end := none,
                 grace_period_until := none, canceled_at := none,
                 upgrade_pending := false, updated_at := none }],
      history := [], usage := [] }).2.1 0
    { tenant_id := "t1", plan_id := "p1", status := "past_due",
      dodo_subscription_id := some "sub_1", current_period_start := none,
      current_period_end := none, grace_period_until := none,
      canceled_at := none, upgrade_pending := false,
      updated_at := none } rfl).1 rfl

/-- Claim C5: signature verification computes the HMAC-SHA256 of the raw
body with the shared secret and compares it (byte-wise, after hex decoding
with a length guard — the functional content of the constant-time compare)
against the header with an optional `sha256=` prefix stripped; while a secret
is configured, a request whose header is missing or fails verification is
rejected with an error, the store state is left completely unchanged (no
WebhookEvent row, no transition), and the outcome is independent of the body
parser — the body is parsed only after verification succeeds. -/
theorem webhook_signature_rejects_before_any_effect :
    (∀ (rest : List Char),
      stripSha256 (String.mk ('s' :: 'h' :: 'a' :: '2' :: '5' :: '6' :: '=' :: rest))
        = String.mk rest)
    ∧ (∀ (hmacHex : String → String → String)
         (parseBody : String → Option WebhookPayload) (sec sig rawBody : String)
         (now : Nat) (db : DB),
        verifyDodoSignature hmacHex rawBody sig sec = false →
        handleWebhook hmacHex parseBody (some sec) (some sig) rawBody now db
          = (.error "Invalid webhook signature", db))
    ∧ (∀ (hmacHex : String → String → String)
         (parseBody : String → Option WebhookPayload) (sec rawBody : String)
         (now : Nat) (db : DB),
        handleWebhook hmacHex parseBody (some sec) none rawBody now db
          = (.error "Missing webhook signature header", db))
    ∧ (∀ (hmacHex : String → String → String)
         (parseBody parseBody2 : String → Option WebhookPayload)
         (sec sig rawBody : String) (now : Nat) (db : DB),
        verifyDodoSignature hmacHex rawBody sig sec = false →
        handleWebhook hmacHex parseBody (some sec) (some sig) rawBody now db
          = handleWebhook hmacHex parseBody2 (some sec) (some sig) rawBody
              now db) := by
  refine ⟨fun rest => rfl, ?_, ?_, ?_⟩
  · intro hmacHex parseBody sec sig rawBody now db hv
    simp [handleWebhook, hv]
  · intro hmacHex parseBody sec rawBody now db
    rfl
  · intro hmacHex parseBody parseBody2 sec sig rawBody now db hv
    simp [handleWebhook, hv]

/-- Witness for C5 at concrete inputs: with secret `s`, body `b`, an HMAC
primitive returning `ab` and a header `ffff` that does not match, the webhook
is rejected and a nonempty store is untouched. -/
theorem webhook_signature_rejects_before_any_effect_witness :
    handleWebhook (fun _ _ => "ab") (fun _ => none) (some "s") (some "ffff")
      "b" 7
      { events := [{ tenant_id := none, event_type := "e",
                     event_id := some "evt_0", created_at := 0 }],
        subs := [], history := [], usage := [] }
      = (.error "Invalid webhook signature",
         { events := [{ tenant_id := none, event_type := "e",
                        event_id := some "evt_0", created_at := 0 }],
           subs := [], history := [], usage := [] }) :=
  webhook_signature_rejects_before_any_effect.2.1 (fun _ _ => "ab")
    (fun _ => none) "s" "ffff" "b" 7
    { events := [{ tenant_id := none, event_type := "e",
                   event_id := some "evt_0", created_at := 0 }],
      subs := [], history := [], usage := [] } (by decide)

/-- Claim C1: an inbound webhook whose derived event id is already stored is
reported as already processed (`processed: false`, reason `duplicate`) with
the store untouched and no handler dispatched; a fresh event id has its event
row inserted first and the handler dispatch runs on the store that already
contains that row; consequently applying the same event (same payload, same
derived event id) twice leaves the subscription, usage, event and history
state identical to applying it once. -/
theorem webhook_dedup_and_idempotent_replay :
    (∀ (hmacHex : String → String → String)
       (parseBody : String → Option WebhookPayload)
       (secret sigHeader : Option String) (rawBody : String) (now : Nat)
       (db : DB) (payload : WebhookPayload),
      parseBody rawBody = some payload →
      passesVerification hmacHex secret sigHeader rawBody = true →
      hasDuplicateEvent db (eventIdOf payload now) = true →
      handleWebhook hmacHex parseBody secret sigHeader rawBody now db
        = (.ok { processed := false, reason := some "duplicate",
                 eventId := eventIdOf payload now,
                 eventType := eventTypeOf payload, tenantId := none }, db))
    ∧ (∀ (hmacHex : String → String → String)
         (parseBody : String → Option WebhookPayload)
         (secret sigHeader : Option String) (rawBody : String) (now : Nat)
         (db : DB) (payload : WebhookPayload),
        parseBody rawBody = some payload →
        passesVerification hmacHex secret sigHeader rawBody = true →
        hasDuplicateEvent db (eventIdOf payload now) = false →
        handleWebhook hmacHex parseBody secret sigHeader rawBody now db
          = (.ok { processed := true, reason := none,
                   eventId := eventIdOf payload now,
                   eventType := eventTypeOf payload,
                   tenantId := tenantIdOf payload },
             processWebhookEvent (eventTypeOf payload) payload now
               (insertEventRow db (tenantIdOf payload) (eventTypeOf payload)
                 (eventIdOf payload now) now))
        ∧ ({ tenant_id := tenantIdOf payload,
             event_type := eventTypeOf payload,
             event_id := some (eventIdOf payload now),
             created_at := now } : EventRow)
            ∈ (insertEventRow db (tenantIdOf payload) (eventTypeOf payload)
                (eventIdOf payload now) now).events)
    ∧ (∀ (hmacHex : String → String → String)
         (parseBody : String → Option WebhookPayload)
         (secret sigHeader : Option String) (rawBody : String)
         (now1 now2 : Nat) (db : DB) (payload : WebhookPayload),
        parseBody rawBody = some payload →
        passesVerification hmacHex secret sigHeader rawBody = true →
        (jsOrS payload.id
          (jsOrS payload.event_id (strTruthy payload.data_id))).isSome
          = true →
        handleWebhook hmacHex parseBody secret sigHeader rawBody now2
            (handleWebhook hmacHex parseBody secret sigHeader rawBody now1
              db).2
          = (.ok { processed := false, reason := some "duplicate",
                   eventId := eventIdOf payload now2,
                   eventType := eventTypeOf payload, tenantId := none },
             (handleWebhook hmacHex parseBody secret sigHeader rawBody now1
               db).2)) := by
  refine ⟨?_, ?_, ?_⟩
  · intro hmacHex parseBody secret sigHeader rawBody now db payload hp hv hdup
    rw [handleWebhook_of_passes hmacHex parseBody secret sigHeader rawBody
        now db hv]
    unfold handleWebhookVerified
    rw [hp]
    simp only [hdup, if_true]
  · intro hmacHex parseBody secret sigHeader rawBody now db payload hp hv hdup
    constructor
    · rw [handleWebhook_of_passes hmacHex parseBody secret sigHeader rawBody
          now db hv]
      unfold handleWebhookVerified
      rw [hp]
      simp only [hdup, Bool.false_eq_true, if_false]
    · unfold insertEventRow
      exact List.mem_append_right _ (List.mem_singleton.mpr rfl)
  · intro hmacHex parseBody secret sigHeader rawBody now1 now2 db payload hp
      hv hid
    have hEid : eventIdOf payload now2 = eventIdOf payload now1 :=
      eventIdOf_time_independent payload hid now2 now1
    by_cases hdup : hasDuplicateEvent db (eventIdOf payload now1) = true
    · have h1 : handleWebhook hmacHex parseBody secret sigHeader rawBody now1
          db = (.ok { processed := false, reason := some "duplicate",
                      eventId := eventIdOf payload now1,
                      eventType := eventTypeOf payload, tenantId := none },
                db) := by
        rw [handleWebhook_of_passes hmacHex parseBody secret sigHeader
            rawBody now1 db hv]
        unfold handleWebhookVerified
        rw [hp]
        simp only [hdup, if_true]
      rw [h1]
      rw [handleWebhook_of_passes hmacHex parseBody secret sigHeader rawBody
          now2 db hv]
      unfold handleWebhookVerified
      rw [hp]
      have hdup2 : hasDuplicateEvent db (eventIdOf payload now2) = true := by
        rw [hEid]; exact hdup
      simp only [hdup2, if_true]
    · have hdup' : hasDuplicateEvent db (eventIdOf payload now1) = false := by
        cases h : hasDuplicateEvent db (eventIdOf payload now1)
        · rfl
        · exact absurd h hdup
      have h1 : handleWebhook hmacHex parseBody secret sigHeader rawBody now1
          db = (.ok { processed := true, reason := none,
                      eventId := eventIdOf payload now1,
                      eventType := eventTypeOf payload,
                      tenantId := tenantIdOf payload },
                processWebhookEvent (eventTypeOf payload) payload now1
                  (insertEventRow db (tenantIdOf payload)
                    (eventTypeOf payload) (eventIdOf payload now1) now1)) := by
        rw [handleWebhook_of_passes hmacHex parseBody secret sigHeader
            rawBody now1 db hv]
        unfold handleWebhookVerified
        rw [hp]
        simp only [hdup', Bool.false_eq_true, if_false]
      rw [h1]
      rw [handleWebhook_of_passes hmacHex parseBody secret sigHeader rawBody
          now2 _ hv]
      unfold handleWebhookVerified
      rw [hp]
      have hdup2 : hasDuplicateEvent
          (processWebhookEvent (eventTypeOf payload) payload now1
            (insertEventRow db (tenantIdOf payload) (eventTypeOf payload)
              (eventIdOf payload now1) now1)) (eventIdOf payload now2)
          = true := by
        rw [hEid]
        exact hasDuplicateEvent_processWebhookEvent _ _ _ _ _
          (hasDuplicateEvent_insertEventRow db (tenantIdOf payload)
            (eventTypeOf payload) (eventIdOf payload now1) now1)
      simp only [hdup2, if_true]

/-- Witness for C1 at concrete inputs: a `payment.failed` event with id
`evt_1` applied twice (times 10 and 20) to a store holding one matching
subscription; the second application is the duplicate no-op and the state
after two applications is the state after one. -/
theorem webhook_dedup_and_idempotent_replay_witness :
    handleWebhook (fun _ _ => "") (fun _ => some
      { id := some "evt_1", event_id := none, data_id := none,
        type := some "payment.failed", event := none,
        meta_tenant := some "t1", data_meta_tenant := none,
        data_object_id := some "sub_1", data_subscription_id := none,
        subscription := none, data_amount_paid := none, amount := none,
        status := none, current_period_end := none,
        cancel_at_period_end := none }) none none "raw" 20
      (handleWebhook (fun _ _ => "") (fun _ => some
        { id := some "evt_1", event_id := none, data_id := none,
          type := some "payment.failed", event := none,
          meta_tenant := some "t1", data_meta_tenant := none,
          data_object_id := some "sub_1", data_subscription_id := none,
          subscription := none, data_amount_paid := none, amount := none,
          status := none, current_period_end := none,
          cancel_at_period_end := none }) none none "raw" 10
        { events := [],
          subs := [{ tenant_id := "t1", plan_id := "p1", status := "active",
                     dodo_subscription_id := some "sub_1",
                     current_period_start := none, current_period_end := none,
                     grace_period_until := none, canceled_at := none,
                     upgrade_pending := false, updated_at := none }],
          history := [], usage := [] }).2
      = (.ok { processed := false, reason := some "duplicate",
               eventId := eventIdOf
                 { id := some "evt_1", event_id := none, data_id := none,
                   type := some "payment.failed", event := none,
                   meta_tenant := some "t1", data_meta_tenant := none,
                   data_object_id := some "sub_1",
                   data_subscription_id := none, subscription := none,
                   data_amount_paid := none, amount := none, status := none,
                   current_period_end := none,
                   cancel_at_period_end := none } 20,
               eventType := eventTypeOf
                 { id := some "evt_1", event_id := none, data_id := none,
                   type := some "payment.failed", event := none,
                   meta_tenant := some "t1", data_meta_tenant := none,
                   data_object_id := some "sub_1",
                   data_subscription_id := none, subscription := none,
                   data_amount_paid := none, amount := none, status := none,
                   current_period_end := none,
                   cancel_at_period_end := none },
               tenantId := none },
         (handleWebhook (fun _ _ => "") (fun _ => some
           { id := some "evt_1", event_id := none, data_id := none,
             type := some "payment.failed", event := none,
             meta_tenant := some "t1", data_meta_tenant := none,
             data_object_id := some "sub_1", data_subscription_id := none,
             subscription := none, data_amount_paid := none, amount := none,
             status := none, current_period_end := none,
             cancel_at_period_end := none }) none none "raw" 10
           { events := [],
             subs := [{ tenant_id := "t1", plan_id := "p1",
                        status := "active",
                        dodo_subscription_id := some "sub_1",
                        current_period_start := none,
                        current_period_end := none,
                        grace_period_until := none, canceled_at := none,
                        upgrade_pending := false, updated_at := none }],
             history := [], usage := [] }).2) :=
  webhook_dedup_and_idempotent_replay.2.2 (fun _ _ => "") (fun _ => some
    { id := some "evt_1", event_id := none, data_id := none,
      type := some "payment.failed", event := none,
      meta_tenant := some "t1", data_meta_tenant := none,
      data_object_id := some "sub_1", data_subscription_id := none,
      subscription := none, data_amount_paid := none, amount := none,
      status := none, current_period_end := none,
      cancel_at_period_end := none }) none none "raw" 10 20
    { events := [],
      subs := [{ tenant_id := "t1", plan_id := "p1", status := "active",
                 dodo_subscription_id := some "sub_1",
                 current_period_start := none, current_period_end := none,
                 grace_period_until := none, canceled_at := none,
                 upgrade_pending := false, updated_at := none }],
      history := [], usage := [] }
    { id := some "evt_1", event_id := none, data_id := none,
      type := some "payment.failed", event := none,
      meta_tenant := some "t1", data_meta_tenant := none,
      data_object_id := some "sub_1", data_subscription_id := none,
      subscription := none, data_amount_paid := none, amount := none,
      status := none, current_period_end := none,
      cancel_at_period_end := none } rfl rfl (by decide)

end ReportFlow
